import Mathlib

/-!
Verification of the astra_simulator flight tools (src/astra/flight_tools.py).

The five methods of the `flight_tools` class are pure numeric formulas over
Python floats; we embed them over the real numbers. Python's `math.pi` is
modelled by `Real.pi` and `x ** (1./3)` by the real power `x ^ (1/3 : ℝ)`.

Division: the primary definitions use Lean's total real division (junk value
0 at a zero denominator); every theorem whose conclusion depends on a
quotient carries the hypothesis that makes the denominator nonzero. Python
itself raises `ZeroDivisionError` on float division by zero, so for the
error-handling claims we also give `Except`-valued variants (suffix `E`)
in which each division whose denominator depends on the inputs is performed
by `pydiv`, which returns `Except.error "ZeroDivisionError"` at denominator
zero, exactly as the Python runtime does.
-/

namespace Astra

/-- Calibration parameters of the `flight_tools` class: the balloon
drag-coefficient curve (highCD, lowCD, transition, ReBand) and the parachute
reference area and drag coefficient, in the order they are declared in the
source (lines 104-110). -/
structure Tools where
  highCD : ℝ
  lowCD : ℝ
  transition : ℝ
  ReBand : ℝ
  parachuteAref : ℝ
  parachuteCD : ℝ

/-- The class-level defaults of `flight_tools`: every calibration parameter
is 0 (source lines 104-110). -/
def defaultTools : Tools := ⟨0, 0, 0, 0, 0, 0⟩

/-- Universal gas constant as in the source: `R = 8.31447` (line 99). -/
def R : ℝ := 8.31447

/-- Molecular mass of air: `airMolecularMass = 0.02896` (line 100). -/
def airMolecularMass : ℝ := 0.02896

/-- Molecular mass of helium: `HeMolecularMass = 0.004002602` (line 101). -/
def HeMolecularMass : ℝ := 0.004002602

/-- Molecular mass of hydrogen: `HydrogenMolecularMass = 0.0020159` (line 102). -/
def HydrogenMolecularMass : ℝ := 0.0020159

/-- The local variable `gasDensity` of `liftingGasMass` (source lines 130-131):
`excessPressureCoefficient * ambientPressMbar * 100 * gasMolecularMass / (R *
(ambientTempC + 273.15))`. -/
noncomputable def gasDensity (ambientTempC ambientPressMbar gasMolecularMass
    excessPressureCoefficient : ℝ) : ℝ :=
  excessPressureCoefficient * ambientPressMbar * 100 * gasMolecularMass /
    (R * (ambientTempC + 273.15))

/-- The local variable `airDensity` of `liftingGasMass` (source line 132):
`ambientPressMbar * 100 * airMolecularMass / (R * (ambientTempC + 273.15))`. -/
noncomputable def airDensity (ambientTempC ambientPressMbar : ℝ) : ℝ :=
  ambientPressMbar * 100 * airMolecularMass / (R * (ambientTempC + 273.15))

/-- `flight_tools.liftingGasMass` (source lines 113-138). Returns the list
`[gasMass, balloonVolume, balloonDiameter]`, modelled as a triple. -/
noncomputable def liftingGasMass (nozzleLift balloonMass ambientTempC
    ambientPressMbar gasMolecularMass excessPressureCoefficient : ℝ) :
    ℝ × ℝ × ℝ :=
  let balloonVolume := (nozzleLift + balloonMass) /
    (airDensity ambientTempC ambientPressMbar -
      gasDensity ambientTempC ambientPressMbar gasMolecularMass
        excessPressureCoefficient)
  let gasMass := balloonVolume *
    gasDensity ambientTempC ambientPressMbar gasMolecularMass
      excessPressureCoefficient
  let balloonDiameter := (6 * balloonVolume / Real.pi) ^ ((1 : ℝ) / 3)
  (gasMass, balloonVolume, balloonDiameter)

/-- `flight_tools.gasMassForFloat` (source lines 141-169). `ventStart` is the
last argument (default 500 in the source; here always explicit). -/
noncomputable def gasMassForFloat (currentAltitude floatingAltitude
    gasMassAtInflation gasMassAtFloatingAltitude ventStart : ℝ) : ℝ :=
  if currentAltitude < floatingAltitude - ventStart then
    gasMassAtInflation
  else if currentAltitude < floatingAltitude then
    (gasMassAtInflation - gasMassAtFloatingAltitude) / ventStart *
      (floatingAltitude - currentAltitude) + gasMassAtFloatingAltitude
  else
    gasMassAtFloatingAltitude

/-- `flight_tools.nozzleLiftForFloat` (source lines 172-200). -/
noncomputable def nozzleLiftForFloat (nozzleLiftAtInflation airDens gasDens
    balloonVolume balloonMass currentAltitude floatingAltitude ventStart : ℝ) :
    ℝ :=
  if currentAltitude < floatingAltitude - ventStart then
    nozzleLiftAtInflation
  else
    (airDens - gasDens) * balloonVolume - balloonMass

/-- The linear-blend expression of the middle Reynolds band of `balloonDrag`
(source lines 223-224): `highCD - (highCD - lowCD) * ((re - transition * 1e5)
/ (ReBand * 1e5))`. -/
noncomputable def balloonCDblend (t : Tools) (reynoldsNumber : ℝ) : ℝ :=
  t.highCD - (t.highCD - t.lowCD) *
    ((reynoldsNumber - t.transition * 1e5) / (t.ReBand * 1e5))

/-- The drag-coefficient selection of `balloonDrag` (source lines 220-226):
highCD below the band, the linear blend inside the band, lowCD above it. -/
noncomputable def balloonCD (t : Tools) (reynoldsNumber : ℝ) : ℝ :=
  if reynoldsNumber < t.transition * 1e5 then
    t.highCD
  else if reynoldsNumber < (t.transition + t.ReBand) * 1e5 then
    balloonCDblend t reynoldsNumber
  else
    t.lowCD

/-- `flight_tools.balloonDrag` (source lines 203-228): Reynolds number
`density * abs(ascentRate) * diameter / viscosity`, then
`0.5 * density * abs(ascentRate)**2 * (pi * diameter**2 / 4) * balloonCD`. -/
noncomputable def balloonDrag (t : Tools) (diameter ascentRate density
    viscosity : ℝ) : ℝ :=
  let reynoldsNumber := density * |ascentRate| * diameter / viscosity
  0.5 * density * |ascentRate| ^ 2 * (Real.pi * diameter ^ 2 / 4) *
    balloonCD t reynoldsNumber

/-- `flight_tools.parachuteDrag` (source lines 231-244):
`0.5 * density * descentRate**2 * parachuteAref * parachuteCD`. -/
noncomputable def parachuteDrag (t : Tools) (descentRate density : ℝ) : ℝ :=
  0.5 * density * descentRate ^ 2 * t.parachuteAref * t.parachuteCD

/-- Python float division: raises `ZeroDivisionError` when the denominator is
exactly zero, otherwise returns the quotient. -/
noncomputable def pydiv (x y : ℝ) : Except String ℝ :=
  if y = 0 then Except.error "ZeroDivisionError" else Except.ok (x / y)

/-- `liftingGasMass` with Python's exact division semantics: each of the three
divisions whose denominator depends on the inputs goes through `pydiv`
(the `/ pi` in the diameter has the constant nonzero denominator `pi` and
cannot raise). -/
noncomputable def liftingGasMassE (nozzleLift balloonMass ambientTempC
    ambientPressMbar gasMolecularMass excessPressureCoefficient : ℝ) :
    Except String (ℝ × ℝ × ℝ) := do
  let gasDens ← pydiv
    (excessPressureCoefficient * ambientPressMbar * 100 * gasMolecularMass)
    (R * (ambientTempC + 273.15))
  let airDens ← pydiv (ambientPressMbar * 100 * airMolecularMass)
    (R * (ambientTempC + 273.15))
  let balloonVolume ← pydiv (nozzleLift + balloonMass) (airDens - gasDens)
  let gasMass := balloonVolume * gasDens
  let balloonDiameter := (6 * balloonVolume / Real.pi) ^ ((1 : ℝ) / 3)
  pure (gasMass, balloonVolume, balloonDiameter)

/-- `gasMassForFloat` with Python's exact division semantics: the division by
`ventStart` is only evaluated when the interpolation branch is taken. -/
noncomputable def gasMassForFloatE (currentAltitude floatingAltitude
    gasMassAtInflation gasMassAtFloatingAltitude ventStart : ℝ) :
    Except String ℝ :=
  if currentAltitude < floatingAltitude - ventStart then
    pure gasMassAtInflation
  else if currentAltitude < floatingAltitude then do
    let slope ← pydiv (gasMassAtInflation - gasMassAtFloatingAltitude)
      ventStart
    pure (slope * (floatingAltitude - currentAltitude) +
      gasMassAtFloatingAltitude)
  else
    pure gasMassAtFloatingAltitude

/-- `balloonDrag` with Python's exact division semantics: the Reynolds-number
division by `viscosity` goes through `pydiv`. -/
noncomputable def balloonDragE (t : Tools) (diameter ascentRate density
    viscosity : ℝ) : Except String ℝ := do
  let reynoldsNumber ← pydiv (density * |ascentRate| * diameter) viscosity
  pure (0.5 * density * |ascentRate| ^ 2 * (Real.pi * diameter ^ 2 / 4) *
    balloonCD t reynoldsNumber)

theorem pydiv_ok (x y : ℝ) (h : y ≠ 0) : pydiv x y = Except.ok (x / y) := by
  simp [pydiv, h]

theorem pydiv_err (x y : ℝ) (h : y = 0) :
    pydiv x y = Except.error "ZeroDivisionError" := by
  simp [pydiv, h]

theorem ok_bind {α β : Type} (a : α) (f : α → Except String β) :
    (Except.ok a >>= f) = f a := rfl

theorem error_bind {α β : Type} (e : String) (f : α → Except String β) :
    ((Except.error e : Except String α) >>= f) = Except.error e := rfl

theorem balloonCDblend_continuous (t : Tools) :
    Continuous (balloonCDblend t) := by
  unfold balloonCDblend
  exact continuous_const.sub (continuous_const.mul
    ((continuous_id.sub continuous_const).div_const _))

theorem balloonCD_eq_on_Iio (t : Tools) (re : ℝ)
    (hre : re < (t.transition + t.ReBand) * 1e5) :
    balloonCD t re = balloonCDblend t (max re (t.transition * 1e5)) := by
  simp only [balloonCD]
  split_ifs with h1
  · rw [max_eq_right (le_of_lt h1)]
    simp [balloonCDblend]
  · rw [max_eq_left (not_lt.mp h1)]

theorem balloonCD_eq_on_Ioi (t : Tools) (h : 0 < t.ReBand) (re : ℝ)
    (hre : t.transition * 1e5 < re) :
    balloonCD t re =
      balloonCDblend t (min re ((t.transition + t.ReBand) * 1e5)) := by
  simp only [balloonCD]
  split_ifs with h1 h2
  · exact absurd hre (not_lt.mpr (le_of_lt h1))
  · rw [min_eq_left (le_of_lt h2)]
  · rw [min_eq_right (not_lt.mp h2)]
    have hband : t.ReBand * 1e5 ≠ 0 :=
      ne_of_gt (mul_pos h (by norm_num))
    simp only [balloonCDblend]
    have hsub : (t.transition + t.ReBand) * 1e5 - t.transition * 1e5 =
        t.ReBand * 1e5 := by ring
    rw [hsub, div_self hband]
    ring

theorem balloonCD_nonneg (t : Tools) (hh : 0 ≤ t.highCD)
    (hl : 0 ≤ t.lowCD) (re : ℝ) : 0 ≤ balloonCD t re := by
  simp only [balloonCD]
  split_ifs with h1 h2
  · exact hh
  · have ha : t.transition * 1e5 ≤ re := not_lt.mp h1
    have hband : 0 < t.ReBand * 1e5 := by nlinarith
    have hs0 : 0 ≤ (re - t.transition * 1e5) / (t.ReBand * 1e5) :=
      div_nonneg (by linarith) (le_of_lt hband)
    have hs1 : (re - t.transition * 1e5) / (t.ReBand * 1e5) ≤ 1 :=
      (div_le_one hband).mpr (by nlinarith)
    simp only [balloonCDblend]
    nlinarith [mul_nonneg hs0 hl, mul_nonneg (sub_nonneg.mpr hs1) hh]
  · exact hl

theorem balloonCD_default (re : ℝ) : balloonCD defaultTools re = 0 := by
  simp only [balloonCD, balloonCDblend, defaultTools]
  split_ifs <;> norm_num

/-- C1: liftingGasMass returns the triple (gasMass, balloonVolume,
balloonDiameter) given by the documented density, buoyancy, mass and
diameter formulas; and whenever airDensity > gasDensity and
nozzleLift + balloonMass > 0, the returned volume is positive and satisfies
volume * gasDensity = gasMass. -/
theorem liftingGasMass_spec (nl bm tC p gmm epc : ℝ) :
    gasDensity tC p gmm epc =
      epc * p * 100 * gmm / (R * (tC + 273.15)) ∧
    airDensity tC p = p * 100 * airMolecularMass / (R * (tC + 273.15)) ∧
    liftingGasMass nl bm tC p gmm epc =
      ((nl + bm) / (airDensity tC p - gasDensity tC p gmm epc) *
          gasDensity tC p gmm epc,
       (nl + bm) / (airDensity tC p - gasDensity tC p gmm epc),
       (6 * ((nl + bm) / (airDensity tC p - gasDensity tC p gmm epc)) /
           Real.pi) ^ ((1 : ℝ) / 3)) ∧
    (gasDensity tC p gmm epc < airDensity tC p → 0 < nl + bm →
      0 < (liftingGasMass nl bm tC p gmm epc).2.1 ∧
      (liftingGasMass nl bm tC p gmm epc).2.1 * gasDensity tC p gmm epc =
        (liftingGasMass nl bm tC p gmm epc).1) := by
  refine ⟨rfl, rfl, rfl, fun hlt hm => ⟨?_, rfl⟩⟩
  show 0 < (nl + bm) / (airDensity tC p - gasDensity tC p gmm epc)
  exact div_pos hm (sub_pos.mpr hlt)

/-- Witness for C1 at the worked example of the spec: helium at 15 Celsius,
1013.25 mbar, nozzle lift 1 kg, balloon mass 0.5 kg. -/
theorem liftingGasMass_spec_witness :
    0 < (liftingGasMass 1 0.5 15 1013.25 HeMolecularMass 1).2.1 ∧
    (liftingGasMass 1 0.5 15 1013.25 HeMolecularMass 1).2.1 *
        gasDensity 15 1013.25 HeMolecularMass 1 =
      (liftingGasMass 1 0.5 15 1013.25 HeMolecularMass 1).1 :=
  (liftingGasMass_spec 1 0.5 15 1013.25 HeMolecularMass 1).2.2.2
    (by norm_num [gasDensity, airDensity, R, airMolecularMass,
      HeMolecularMass])
    (by norm_num)

/-- C2: for ventStart > 0, gasMassForFloat is the three-region piecewise
model, with the linear interpolation in the middle region, and it agrees
exactly with the outer regions at both region edges. -/
theorem gasMassForFloat_spec (ca fa gmi gmf vs : ℝ) (hvs : 0 < vs) :
    (ca < fa - vs → gasMassForFloat ca fa gmi gmf vs = gmi) ∧
    (fa - vs ≤ ca → ca < fa →
      gasMassForFloat ca fa gmi gmf vs = (gmi - gmf) / vs * (fa - ca) + gmf) ∧
    (fa ≤ ca → gasMassForFloat ca fa gmi gmf vs = gmf) ∧
    gasMassForFloat (fa - vs) fa gmi gmf vs = gmi ∧
    gasMassForFloat fa fa gmi gmf vs = gmf := by
  refine ⟨fun h => ?_, fun h1 h2 => ?_, fun h => ?_, ?_, ?_⟩
  · simp only [gasMassForFloat, if_pos h]
  · simp only [gasMassForFloat]
    rw [if_neg (not_lt.mpr h1), if_pos h2]
  · simp only [gasMassForFloat]
    rw [if_neg (by push_neg; linarith), if_neg (not_lt.mpr h)]
  · simp only [gasMassForFloat]
    rw [if_neg (lt_irrefl _), if_pos (by linarith)]
    have h3 : fa - (fa - vs) = vs := by ring
    rw [h3, div_mul_cancel₀ _ (ne_of_gt hvs)]
    ring
  · simp only [gasMassForFloat]
    rw [if_neg (by push_neg; linarith), if_neg (lt_irrefl _)]

/-- Witness for C2: concrete values in each region and at both edges. -/
theorem gasMassForFloat_spec_witness :
    gasMassForFloat 100 1000 5 3 500 = 5 ∧
    gasMassForFloat 750 1000 5 3 500 = (5 - 3) / 500 * (1000 - 750) + 3 ∧
    gasMassForFloat (1000 - 500) 1000 5 3 500 = 5 ∧
    gasMassForFloat 1000 1000 5 3 500 = 3 :=
  ⟨(gasMassForFloat_spec 100 1000 5 3 500 (by norm_num)).1 (by norm_num),
   (gasMassForFloat_spec 750 1000 5 3 500 (by norm_num)).2.1 (by norm_num)
     (by norm_num),
   (gasMassForFloat_spec 0 1000 5 3 500 (by norm_num)).2.2.2.1,
   (gasMassForFloat_spec 1000 1000 5 3 500 (by norm_num)).2.2.1 le_rfl⟩

/-- C4: nozzleLiftForFloat is a two-region step: strictly below the single
threshold floatingAltitude - ventStart it returns nozzleLiftAtInflation
unchanged, and at or above the threshold (including above floatingAltitude)
it returns (airDensity - gasDensity) * balloonVolume - balloonMass. -/
theorem nozzleLiftForFloat_spec (nli ad gd vol bm ca fa vs : ℝ) :
    (ca < fa - vs → nozzleLiftForFloat nli ad gd vol bm ca fa vs = nli) ∧
    (fa - vs ≤ ca →
      nozzleLiftForFloat nli ad gd vol bm ca fa vs = (ad - gd) * vol - bm) := by
  constructor
  · intro h
    simp only [nozzleLiftForFloat, if_pos h]
  · intro h
    simp only [nozzleLiftForFloat]
    rw [if_neg (not_lt.mpr h)]

/-- Witness for C4: one value below the threshold, one exactly at the
threshold, where the recomputed buoyancy formula applies. -/
theorem nozzleLiftForFloat_spec_witness :
    nozzleLiftForFloat 2 1 (1 / 2) 3 1 100 1000 500 = 2 ∧
    nozzleLiftForFloat 2 1 (1 / 2) 3 1 500 1000 500 = (1 - 1 / 2) * 3 - 1 :=
  ⟨(nozzleLiftForFloat_spec 2 1 (1 / 2) 3 1 100 1000 500).1 (by norm_num),
   (nozzleLiftForFloat_spec 2 1 (1 / 2) 3 1 500 1000 500).2 (by norm_num)⟩

/-- C10: for ventStart > 0 the gas mass returned by gasMassForFloat always
lies between min and max of the inflation and floating-altitude gas masses. -/
theorem gasMassForFloat_between (ca fa gmi gmf vs : ℝ) (hvs : 0 < vs) :
    min gmi gmf ≤ gasMassForFloat ca fa gmi gmf vs ∧
    gasMassForFloat ca fa gmi gmf vs ≤ max gmi gmf := by
  simp only [gasMassForFloat]
  split_ifs with h1 h2
  · exact ⟨min_le_left _ _, le_max_left _ _⟩
  · have hfa : fa - vs ≤ ca := not_lt.mp h1
    have h3 : 0 < fa - ca := sub_pos.mpr h2
    have h4 : fa - ca ≤ vs := by linarith
    have hrw : (gmi - gmf) / vs * (fa - ca) + gmf =
        (gmi - gmf) * ((fa - ca) / vs) + gmf := by ring
    rw [hrw]
    have hs0 : 0 ≤ (fa - ca) / vs := le_of_lt (div_pos h3 hvs)
    have hs1 : (fa - ca) / vs ≤ 1 := (div_le_one hvs).mpr h4
    constructor
    · nlinarith [mul_nonneg hs0 (sub_nonneg.mpr (min_le_left gmi gmf)),
        mul_nonneg (sub_nonneg.mpr hs1)
          (sub_nonneg.mpr (min_le_right gmi gmf))]
    · nlinarith [mul_nonneg hs0 (sub_nonneg.mpr (le_max_left gmi gmf)),
        mul_nonneg (sub_nonneg.mpr hs1)
          (sub_nonneg.mpr (le_max_right gmi gmf))]
  · exact ⟨min_le_right _ _, le_max_right _ _⟩

/-- Witness for C10 at a point inside the venting band. -/
theorem gasMassForFloat_between_witness :
    min 5 3 ≤ gasMassForFloat 750 1000 5 3 500 ∧
    gasMassForFloat 750 1000 5 3 500 ≤ max 5 3 :=
  gasMassForFloat_between 750 1000 5 3 500 (by norm_num)

/-- C6: balloonDrag is symmetric in the sign of ascentRate: the velocity
enters only through its absolute value. -/
theorem balloonDrag_symm (t : Tools) (diameter ascentRate density
    viscosity : ℝ) :
    balloonDrag t diameter ascentRate density viscosity =
      balloonDrag t diameter (-ascentRate) density viscosity := by
  simp [balloonDrag, abs_neg]

/-- C8: parachuteDrag returns exactly
`0.5 * density * descentRate ^ 2 * parachuteAref * parachuteCD`, and hence
scales quadratically with descent rate: drag at 2v is 4 times drag at v. -/
theorem parachuteDrag_spec (t : Tools) (descentRate density : ℝ) :
    parachuteDrag t descentRate density =
      0.5 * density * descentRate ^ 2 * t.parachuteAref * t.parachuteCD ∧
    ∀ v d : ℝ, parachuteDrag t (2 * v) d = 4 * parachuteDrag t v d := by
  refine ⟨rfl, fun v d => ?_⟩
  simp only [parachuteDrag]
  ring

/-- C3: for ReBand > 0, the drag coefficient used by balloonDrag equals
highCD exactly at Reynolds number transition * 1e5 and lowCD exactly at
(transition + ReBand) * 1e5, the piecewise coefficient is continuous at both
band boundaries, and balloonDrag computes its force from this coefficient at
the Reynolds number density * abs(ascentRate) * diameter / viscosity. -/
theorem balloonCD_boundaries (t : Tools) (h : 0 < t.ReBand) :
    balloonCD t (t.transition * 1e5) = t.highCD ∧
    balloonCD t ((t.transition + t.ReBand) * 1e5) = t.lowCD ∧
    ContinuousAt (balloonCD t) (t.transition * 1e5) ∧
    ContinuousAt (balloonCD t) ((t.transition + t.ReBand) * 1e5) ∧
    ∀ d v ρ μ : ℝ, balloonDrag t d v ρ μ =
      0.5 * ρ * |v| ^ 2 * (Real.pi * d ^ 2 / 4) *
        balloonCD t (ρ * |v| * d / μ) := by
  have h5 : (0 : ℝ) < 1e5 := by norm_num
  have hab : t.transition * 1e5 < (t.transition + t.ReBand) * 1e5 := by
    nlinarith [mul_pos h h5]
  have hleft : balloonCD t (t.transition * 1e5) = t.highCD := by
    simp only [balloonCD]
    rw [if_neg (lt_irrefl _), if_pos hab]
    simp [balloonCDblend]
  have hright : balloonCD t ((t.transition + t.ReBand) * 1e5) = t.lowCD := by
    simp only [balloonCD]
    rw [if_neg (not_lt.mpr (le_of_lt hab)), if_neg (lt_irrefl _)]
  refine ⟨hleft, hright, ?_, ?_, fun d v ρ μ => rfl⟩
  · have hcont : Continuous fun re : ℝ =>
        balloonCDblend t (max re (t.transition * 1e5)) :=
      (balloonCDblend_continuous t).comp (continuous_id.max continuous_const)
    exact hcont.continuousAt.congr
      (Filter.eventuallyEq_of_mem (Iio_mem_nhds hab)
        (fun re hre => (balloonCD_eq_on_Iio t re hre).symm))
  · have hcont : Continuous fun re : ℝ =>
        balloonCDblend t (min re ((t.transition + t.ReBand) * 1e5)) :=
      (balloonCDblend_continuous t).comp (continuous_id.min continuous_const)
    exact hcont.continuousAt.congr
      (Filter.eventuallyEq_of_mem (Ioi_mem_nhds hab)
        (fun re hre => (balloonCD_eq_on_Ioi t h re hre).symm))

/-- Witness for C3 at a concrete calibration: highCD 2, lowCD 1,
transition 3, ReBand 2. -/
theorem balloonCD_boundaries_witness :
    balloonCD ⟨2, 1, 3, 2, 0, 0⟩ (3 * 1e5) = 2 ∧
    balloonCD ⟨2, 1, 3, 2, 0, 0⟩ ((3 + 2) * 1e5) = 1 :=
  ⟨(balloonCD_boundaries ⟨2, 1, 3, 2, 0, 0⟩ (by norm_num)).1,
   (balloonCD_boundaries ⟨2, 1, 3, 2, 0, 0⟩ (by norm_num)).2.1⟩

/-- Counterexample for C7: with calibration highCD = lowCD = 1 and a negative
air density, balloonDrag returns a strictly negative force, so the returned
value is not non-negative for every density. -/
theorem balloonDrag_nonneg_cex :
    balloonDrag ⟨1, 1, 1, 1, 0, 0⟩ 1 1 (-1) 1 < 0 := by
  have hcd : balloonCD ⟨1, 1, 1, 1, 0, 0⟩ ((-1) * |(1 : ℝ)| * 1 / 1) =
      (1 : ℝ) := by
    simp only [balloonCD]
    rw [if_pos (by norm_num)]
  show 0.5 * (-1) * |(1 : ℝ)| ^ 2 * (Real.pi * 1 ^ 2 / 4) *
      balloonCD ⟨1, 1, 1, 1, 0, 0⟩ ((-1) * |(1 : ℝ)| * 1 / 1) < 0
  rw [hcd]
  simp only [abs_one, one_pow]
  nlinarith [Real.pi_pos]

/-- C7 amended: balloonDrag returns a non-negative force for every diameter,
ascentRate and viscosity whenever the air density is non-negative and the
configured highCD and lowCD are non-negative. -/
theorem balloonDrag_nonneg (t : Tools) (d v ρ μ : ℝ) (hρ : 0 ≤ ρ)
    (hh : 0 ≤ t.highCD) (hl : 0 ≤ t.lowCD) :
    0 ≤ balloonDrag t d v ρ μ := by
  have hcd := balloonCD_nonneg t hh hl (ρ * |v| * d / μ)
  show 0 ≤ 0.5 * ρ * |v| ^ 2 * (Real.pi * d ^ 2 / 4) *
    balloonCD t (ρ * |v| * d / μ)
  have h1 : (0 : ℝ) ≤ 0.5 * ρ := by linarith
  have h2 : (0 : ℝ) ≤ |v| ^ 2 := sq_nonneg _
  have h3 : (0 : ℝ) ≤ Real.pi * d ^ 2 / 4 := by positivity
  exact mul_nonneg (mul_nonneg (mul_nonneg h1 h2) h3) hcd

/-- Witness for C7 amended at a concrete positive configuration. -/
theorem balloonDrag_nonneg_witness :
    0 ≤ balloonDrag ⟨1, 1 / 2, 3, 2, 0, 0⟩ 1 5 1 1 :=
  balloonDrag_nonneg ⟨1, 1 / 2, 3, 2, 0, 0⟩ 1 5 1 1 (by norm_num)
    (by norm_num) (by norm_num)

/-- C9: with the class defaults (all calibration parameters zero) no
configuration error is raised and both drag operations silently return
zero: balloonDrag is 0 for every input with nonzero viscosity, and
parachuteDrag is 0 for every input. -/
theorem defaults_silently_zero (d v ρ μ : ℝ) (hμ : μ ≠ 0) :
    balloonDrag defaultTools d v ρ μ = 0 ∧
    ∀ dr ρ2 : ℝ, parachuteDrag defaultTools dr ρ2 = 0 := by
  constructor
  · show 0.5 * ρ * |v| ^ 2 * (Real.pi * d ^ 2 / 4) *
      balloonCD defaultTools (ρ * |v| * d / μ) = 0
    rw [balloonCD_default, mul_zero]
  · intro dr ρ2
    simp only [parachuteDrag, defaultTools]
    norm_num

/-- Witness for C9 at concrete inputs. -/
theorem defaults_silently_zero_witness :
    balloonDrag defaultTools 1 2 3 4 = 0 ∧
    parachuteDrag defaultTools 5 6 = 0 :=
  ⟨(defaults_silently_zero 1 2 3 4 (by norm_num)).1,
   (defaults_silently_zero 1 2 3 4 (by norm_num)).2 5 6⟩

/-- Counterexample for C5: under Python's float-division semantics,
liftingGasMass with the lifting gas as dense as air (gas molecular mass equal
to airMolecularMass, excess pressure coefficient 1) raises ZeroDivisionError
instead of returning a numeric result. -/
theorem toolkit_no_exceptions_cex :
    liftingGasMassE 1 1 15 1000 airMolecularMass 1 =
      Except.error "ZeroDivisionError" := by
  have hden : R * ((15 : ℝ) + 273.15) ≠ 0 := by norm_num [R]
  simp only [liftingGasMassE]
  rw [pydiv_ok _ _ hden, ok_bind, pydiv_ok _ _ hden, ok_bind,
    pydiv_err _ _ (by ring), error_bind]

/-- C5 amended: gasMassForFloat with ventStart = 0 still returns a numeric
result for every input, because its interpolation branch is unreachable; but
liftingGasMass raises ZeroDivisionError whenever the gas density equals the
air density, and balloonDrag raises ZeroDivisionError whenever the viscosity
is zero, since Python float division by zero raises instead of producing a
non-finite value. -/
theorem toolkit_division_errors (ca fa gmi gmf nl bm tC p gmm epc : ℝ)
    (t : Tools) (d v ρ : ℝ)
    (heq : gasDensity tC p gmm epc = airDensity tC p) :
    (gasMassForFloatE ca fa gmi gmf 0).isOk = true ∧
    liftingGasMassE nl bm tC p gmm epc = Except.error "ZeroDivisionError" ∧
    balloonDragE t d v ρ 0 = Except.error "ZeroDivisionError" := by
  refine ⟨?_, ?_, ?_⟩
  · simp only [gasMassForFloatE]
    split_ifs with h1 h2
    · rfl
    · exact absurd (show ca < fa - 0 by rw [sub_zero]; exact h2) h1
    · rfl
  · by_cases hden : R * (tC + 273.15) = 0
    · simp only [liftingGasMassE]
      rw [pydiv_err _ _ hden, error_bind]
    · have hz : p * 100 * airMolecularMass / (R * (tC + 273.15)) -
          epc * p * 100 * gmm / (R * (tC + 273.15)) = 0 := by
        have h2 := heq
        simp only [gasDensity, airDensity] at h2
        rw [← h2]
        ring
      simp only [liftingGasMassE]
      rw [pydiv_ok _ _ hden, ok_bind, pydiv_ok _ _ hden, ok_bind,
        pydiv_err _ _ hz, error_bind]
  · simp only [balloonDragE]
    rw [pydiv_err _ _ rfl, error_bind]

/-- Witness for C5 amended at concrete inputs: a benign zero ventStart, a
gas exactly as dense as air, and a zero viscosity. -/
theorem toolkit_division_errors_witness :
    (gasMassForFloatE 100 1000 5 3 0).isOk = true ∧
    liftingGasMassE 1 1 15 1000 airMolecularMass 1 =
      Except.error "ZeroDivisionError" ∧
    balloonDragE defaultTools 1 5 1 0 = Except.error "ZeroDivisionError" :=
  toolkit_division_errors 100 1000 5 3 1 1 15 1000 airMolecularMass 1
    defaultTools 1 5 1 (by simp [gasDensity, airDensity, one_mul])

end Astra
